import Mathlib

set_option maxRecDepth 8000

/-!
Shallow embedding of `src/sntp_packet.py` (class `SNTP_Packet`).

Python integers are modelled by `ℤ`; Python real values (floats produced by
`datetime.timestamp()` and by `/` division) are modelled by `ℚ`; a Python
`bytes` buffer is modelled by `List ℕ` whose entries are byte values.
Fallible operations (`struct.pack` / `struct.unpack`, which raise
`struct.error`) are modelled with `Option`.
-/

/-- The packet record: the fields assigned in `SNTP_Packet.__init__`
(`li`, `vn`, `mode`, `stratum`, `poll`, `precision`, `root_delay`,
`root_dispersion`, `reference_identifier` and the four timestamp pairs).
Python attributes hold arbitrary integers, hence `ℤ`. -/
structure SNTP_Packet where
  li : ℤ
  vn : ℤ
  mode : ℤ
  stratum : ℤ
  poll : ℤ
  precision : ℤ
  root_delay : ℤ
  root_dispersion : ℤ
  reference_identifier : ℤ
  reference_timestamp : ℤ × ℤ
  originate_timestamp : ℤ × ℤ
  receive_timestamp : ℤ × ℤ
  transmit_timestamp : ℤ × ℤ
  deriving Repr, DecidableEq

/-- The field values set by `SNTP_Packet.__init__`: everything zero. -/
def init_packet : SNTP_Packet :=
  { li := 0, vn := 0, mode := 0, stratum := 0, poll := 0, precision := 0,
    root_delay := 0, root_dispersion := 0, reference_identifier := 0,
    reference_timestamp := (0, 0), originate_timestamp := (0, 0),
    receive_timestamp := (0, 0), transmit_timestamp := (0, 0) }

/-- `encode_li_vn_mode`: `(self.li << 6) + (self.vn << 3) + self.mode`.
Python `<<` on arbitrary integers is multiplication by a power of two. -/
def encode_li_vn_mode (p : SNTP_Packet) : ℤ :=
  p.li * 64 + p.vn * 8 + p.mode

/-- `decode_li_vn_mode`: masks `0b11000000`, `0b00111000`, `0b00000111`
and shifts by 6 and 3.  The argument is the unpacked byte value. -/
def decode_li_vn_mode (val : ℕ) : ℕ × ℕ × ℕ :=
  ((val &&& 192) >>> 6, (val &&& 56) >>> 3, val &&& 7)

/-- Packing one value with `struct` format `B` (unsigned byte, big-endian):
yields the single byte, and raises `struct.error` (here `none`) unless
`0 <= v <= 255`.  CPython 3 raises on out-of-range values: it does not
truncate. -/
def packUByte (v : ℤ) : Option (List ℕ) :=
  if 0 ≤ v ∧ v ≤ 255 then some [v.toNat] else none

/-- Packing one value with `struct` format `I` under byte order `>`
(unsigned 32-bit, big-endian): yields the four bytes most significant
first, and raises `struct.error` (here `none`) unless `0 <= v < 2^32`. -/
def packUInt (v : ℤ) : Option (List ℕ) :=
  if 0 ≤ v ∧ v < 4294967296 then
    some [v.toNat / 16777216 % 256, v.toNat / 65536 % 256,
          v.toNat / 256 % 256, v.toNat % 256]
  else none

/-- One `struct` format character of the packet format: `true` stands for
`B` (unsigned byte), `false` for `I` (unsigned 32-bit). -/
def packField : Bool → ℤ → Option (List ℕ)
  | true, v => packUByte v
  | false, v => packUInt v

/-- `struct.pack` over a format (list of field kinds) and a matching value
list: packs each value with its format character and concatenates the
bytes; any out-of-range value raises `struct.error` (here `none`). -/
def packFields : List Bool → List ℤ → Option (List ℕ)
  | [], [] => some []
  | isByte :: fmt, v :: vals =>
    (packField isByte v).bind fun bs =>
    (packFields fmt vals).bind fun rest => some (bs ++ rest)
  | _, _ => none

/-- `get_packet_format`: `'>BBBBIIIIIIIIIII'`, as the list of its field
kinds (`true` = `B`, `false` = `I`); the `>` prefix (big-endian) is built
into `packUInt`/`readUInt`. -/
def get_packet_format : List Bool :=
  [true, true, true, true] ++ List.replicate 11 false

/-- `get_packet_value`: the 15 packed values in wire order, with the four
timestamp pairs flattened by `*`. -/
def get_packet_value (p : SNTP_Packet) : List ℤ :=
  [encode_li_vn_mode p, p.stratum, p.poll, p.precision,
   p.root_delay, p.root_dispersion, p.reference_identifier,
   p.reference_timestamp.1, p.reference_timestamp.2,
   p.originate_timestamp.1, p.originate_timestamp.2,
   p.receive_timestamp.1, p.receive_timestamp.2,
   p.transmit_timestamp.1, p.transmit_timestamp.2]

/-- `to_bytes`: `struct.pack(self.get_packet_format(), *self.get_packet_value())`. -/
def to_bytes (p : SNTP_Packet) : Option (List ℕ) :=
  packFields get_packet_format (get_packet_value p)

/-- Reading one big-endian 32-bit unsigned integer from buffer `b` at
byte offset `i`, as `struct.unpack` with format `>I` does. -/
def readUInt (b : List ℕ) (i : ℕ) : ℕ :=
  b.getD i 0 * 16777216 + b.getD (i + 1) 0 * 65536 +
    b.getD (i + 2) 0 * 256 + b.getD (i + 3) 0

/-- `from_bytes`: `struct.unpack('>BBBBIIIIIIIIIII', buff)` followed by the
field assignments.  `struct.unpack` raises `struct.error` (here `none`)
unless the buffer is exactly 48 bytes (`calcsize` of the format); a 48-byte
buffer is decoded with no further validation.  The first byte goes through
`decode_li_vn_mode`; the unpacked values are unsigned. -/
def from_bytes (b : List ℕ) : Option SNTP_Packet :=
  if b.length = 48 then
    let lvm := decode_li_vn_mode (b.getD 0 0)
    some { li := (lvm.1 : ℤ), vn := (lvm.2.1 : ℤ), mode := (lvm.2.2 : ℤ),
           stratum := (b.getD 1 0 : ℤ), poll := (b.getD 2 0 : ℤ),
           precision := (b.getD 3 0 : ℤ),
           root_delay := (readUInt b 4 : ℤ),
           root_dispersion := (readUInt b 8 : ℤ),
           reference_identifier := (readUInt b 12 : ℤ),
           reference_timestamp := ((readUInt b 16 : ℤ), (readUInt b 20 : ℤ)),
           originate_timestamp := ((readUInt b 24 : ℤ), (readUInt b 28 : ℤ)),
           receive_timestamp := ((readUInt b 32 : ℤ), (readUInt b 36 : ℤ)),
           transmit_timestamp := ((readUInt b 40 : ℤ), (readUInt b 44 : ℤ)) }
  else none

/-- `get_ntp_timestamp_offset`: models the library call
`datetime.datetime(1900, 1, 1, tzinfo=datetime.timezone.utc).timestamp()`,
the Unix timestamp of 1900-01-01T00:00:00Z, which is exactly
`-2208988800.0`. -/
def get_ntp_timestamp_offset : ℚ := -2208988800

/-- Python `int()` on a real value truncates toward zero. -/
def pyTruncInt (q : ℚ) : ℤ :=
  if 0 ≤ q then ⌊q⌋ else ⌈q⌉

/-- `encode_ntp_timestamp`: subtracts the 1900 epoch offset, takes the
integer part with `int(...)`, and converts the remaining fractional part
to an integer with `int((ntp_timestamp - second) * 2 ** 32)`. -/
def encode_ntp_timestamp (timestamp : ℚ) : ℤ × ℤ :=
  let ntp_timestamp := timestamp - get_ntp_timestamp_offset
  let second := pyTruncInt ntp_timestamp
  let fraction_second := pyTruncInt ((ntp_timestamp - (second : ℚ)) * 4294967296)
  (second, fraction_second)

/-- `decode_ntp_timestamp`: `fraction_seconds /= 2 ** 32`, then
`seconds + fraction_seconds + get_ntp_timestamp_offset()`. -/
def decode_ntp_timestamp (seconds fraction_seconds : ℚ) : ℚ :=
  seconds + fraction_seconds / 4294967296 + get_ntp_timestamp_offset

/-- `client_packet` (static method): fresh `SNTP_Packet()` with `li = 0`,
`vn = 4`, `mode = 3`, and `transmit_timestamp` set from the current time;
the clock read `datetime.datetime.now(...).timestamp()` is abstracted into
the parameter `curr_time`. -/
def client_packet (curr_time : ℚ) : SNTP_Packet :=
  { init_packet with
      li := 0, vn := 4, mode := 3,
      transmit_timestamp := encode_ntp_timestamp curr_time }

/-- `compute_offset` (static method), with the source's positional
parameter order: `client_transmission_time`, `client_reception_time`,
`server_transmission_time`, `server_reception_time`; each argument is a
`(seconds, fraction)` pair of integers, and the result is real-valued. -/
def compute_offset (client_transmission_time client_reception_time
    server_transmission_time server_reception_time : ℤ × ℤ) : ℚ :=
  let theta_1_second : ℚ :=
    ((server_reception_time.1 - client_transmission_time.1 : ℤ) : ℚ)
  let theta_1_fraction : ℚ :=
    ((server_reception_time.2 - client_transmission_time.2 : ℤ) : ℚ) / 4294967296
  let theta_2_second : ℚ :=
    ((server_transmission_time.1 - client_reception_time.1 : ℤ) : ℚ)
  let theta_2_fraction : ℚ :=
    ((server_transmission_time.2 - client_reception_time.2 : ℤ) : ℚ) / 4294967296
  (theta_1_second + theta_1_fraction + theta_2_second + theta_2_fraction) / 2

/-! ### Helper lemmas about the packers and the composite byte -/

lemma packUByte_in_range {v : ℤ} (h0 : 0 ≤ v) (h1 : v ≤ 255) :
    packUByte v = some [v.toNat] := by
  simp [packUByte, h0, h1]

lemma packUInt_in_range {v : ℤ} (h0 : 0 ≤ v) (h1 : v < 4294967296) :
    packUInt v = some [v.toNat / 16777216 % 256, v.toNat / 65536 % 256,
      v.toNat / 256 % 256, v.toNat % 256] := by
  simp [packUInt, h0, h1]

lemma decode_encode_lvm :
    ∀ l < 4, ∀ v < 8, ∀ m < 8,
      decode_li_vn_mode (l * 64 + v * 8 + m) = (l, v, m) := by decide

lemma encode_decode_lvm :
    ∀ x < 256,
      (decode_li_vn_mode x).1 * 64 + (decode_li_vn_mode x).2.1 * 8 +
        (decode_li_vn_mode x).2.2 = x := by decide

lemma decode_lvm_range :
    ∀ x < 256,
      (decode_li_vn_mode x).1 ≤ 3 ∧ (decode_li_vn_mode x).2.1 ≤ 7 ∧
        (decode_li_vn_mode x).2.2 ≤ 7 := by decide

/-! ### Claim theorems: composite byte and decode length check -/

/-- C5: for every li in [0,3], vn in [0,7], mode in [0,7], decoding the
encoded composite byte returns the original triple, and the encoded byte
equals `(li <<< 6) ||| (vn <<< 3) ||| mode`. -/
theorem C5_composite_byte_roundtrip :
    ∀ l : ℕ, l ≤ 3 → ∀ v : ℕ, v ≤ 7 → ∀ m : ℕ, m ≤ 7 →
      decode_li_vn_mode (encode_li_vn_mode
          { init_packet with li := (l : ℤ), vn := (v : ℤ), mode := (m : ℤ) }).toNat
        = (l, v, m) ∧
      encode_li_vn_mode
          { init_packet with li := (l : ℤ), vn := (v : ℤ), mode := (m : ℤ) }
        = ((l <<< 6 ||| v <<< 3 ||| m : ℕ) : ℤ) := by decide

/-- Witness for C5 at li = 0, vn = 4, mode = 3. -/
theorem C5_composite_byte_roundtrip_witness :
    decode_li_vn_mode (encode_li_vn_mode
        { init_packet with li := (0 : ℤ), vn := (4 : ℤ), mode := (3 : ℤ) }).toNat
      = (0, 4, 3) ∧
    encode_li_vn_mode
        { init_packet with li := (0 : ℤ), vn := (4 : ℤ), mode := (3 : ℤ) }
      = (((0 : ℕ) <<< 6 ||| (4 : ℕ) <<< 3 ||| (3 : ℕ) : ℕ) : ℤ) :=
  C5_composite_byte_roundtrip 0 (by decide) 4 (by decide) 3 (by decide)

/-- C10: `decode_li_vn_mode` is total on every byte value 0–255 and its
result triple always satisfies li in [0,3], vn in [0,7], mode in [0,7]. -/
theorem C10_decode_lvm_total_in_range :
    ∀ val : ℕ, val ≤ 255 →
      (decode_li_vn_mode val).1 ≤ 3 ∧ (decode_li_vn_mode val).2.1 ≤ 7 ∧
        (decode_li_vn_mode val).2.2 ≤ 7 := by decide

/-- Witness for C10 at val = 255. -/
theorem C10_decode_lvm_total_in_range_witness :
    (decode_li_vn_mode 255).1 ≤ 3 ∧ (decode_li_vn_mode 255).2.1 ≤ 7 ∧
      (decode_li_vn_mode 255).2.2 ≤ 7 :=
  C10_decode_lvm_total_in_range 255 (by decide)

/-- C2: `from_bytes` fails (raises `struct.error`, modelled as `none`) if
and only if the buffer is not exactly 48 bytes long; a 48-byte buffer is
always accepted. -/
theorem C2_decode_fails_iff_not_48 (b : List ℕ) :
    from_bytes b = none ↔ b.length ≠ 48 := by
  rw [from_bytes]
  split_ifs with h
  · simp [h]
  · simp [h]

/-- Under the field-width bounds, `to_bytes` succeeds and produces the
explicit 48-byte big-endian buffer. -/
lemma to_bytes_in_range (p : SNTP_Packet)
    (he0 : 0 ≤ encode_li_vn_mode p) (he1 : encode_li_vn_mode p ≤ 255)
    (hs0 : 0 ≤ p.stratum) (hs1 : p.stratum ≤ 255)
    (hp0 : 0 ≤ p.poll) (hp1 : p.poll ≤ 255)
    (hq0 : 0 ≤ p.precision) (hq1 : p.precision ≤ 255)
    (hu0a : 0 ≤ p.root_delay) (hu0b : p.root_delay < 4294967296)
    (hu1a : 0 ≤ p.root_dispersion) (hu1b : p.root_dispersion < 4294967296)
    (hu2a : 0 ≤ p.reference_identifier) (hu2b : p.reference_identifier < 4294967296)
    (hu3a : 0 ≤ p.reference_timestamp.1) (hu3b : p.reference_timestamp.1 < 4294967296)
    (hu4a : 0 ≤ p.reference_timestamp.2) (hu4b : p.reference_timestamp.2 < 4294967296)
    (hu5a : 0 ≤ p.originate_timestamp.1) (hu5b : p.originate_timestamp.1 < 4294967296)
    (hu6a : 0 ≤ p.originate_timestamp.2) (hu6b : p.originate_timestamp.2 < 4294967296)
    (hu7a : 0 ≤ p.receive_timestamp.1) (hu7b : p.receive_timestamp.1 < 4294967296)
    (hu8a : 0 ≤ p.receive_timestamp.2) (hu8b : p.receive_timestamp.2 < 4294967296)
    (hu9a : 0 ≤ p.transmit_timestamp.1) (hu9b : p.transmit_timestamp.1 < 4294967296)
    (hu10a : 0 ≤ p.transmit_timestamp.2) (hu10b : p.transmit_timestamp.2 < 4294967296)
    : to_bytes p = some [
      (encode_li_vn_mode p).toNat,
      p.stratum.toNat,
      p.poll.toNat,
      p.precision.toNat,
      p.root_delay.toNat / 16777216 % 256,
      p.root_delay.toNat / 65536 % 256,
      p.root_delay.toNat / 256 % 256,
      p.root_delay.toNat % 256,
      p.root_dispersion.toNat / 16777216 % 256,
      p.root_dispersion.toNat / 65536 % 256,
      p.root_dispersion.toNat / 256 % 256,
      p.root_dispersion.toNat % 256,
      p.reference_identifier.toNat / 16777216 % 256,
      p.reference_identifier.toNat / 65536 % 256,
      p.reference_identifier.toNat / 256 % 256,
      p.reference_identifier.toNat % 256,
      p.reference_timestamp.1.toNat / 16777216 % 256,
      p.reference_timestamp.1.toNat / 65536 % 256,
      p.reference_timestamp.1.toNat / 256 % 256,
      p.reference_timestamp.1.toNat % 256,
      p.reference_timestamp.2.toNat / 16777216 % 256,
      p.reference_timestamp.2.toNat / 65536 % 256,
      p.reference_timestamp.2.toNat / 256 % 256,
      p.reference_timestamp.2.toNat % 256,
      p.originate_timestamp.1.toNat / 16777216 % 256,
      p.originate_timestamp.1.toNat / 65536 % 256,
      p.originate_timestamp.1.toNat / 256 % 256,
      p.originate_timestamp.1.toNat % 256,
      p.originate_timestamp.2.toNat / 16777216 % 256,
      p.originate_timestamp.2.toNat / 65536 % 256,
      p.originate_timestamp.2.toNat / 256 % 256,
      p.originate_timestamp.2.toNat % 256,
      p.receive_timestamp.1.toNat / 16777216 % 256,
      p.receive_timestamp.1.toNat / 65536 % 256,
      p.receive_timestamp.1.toNat / 256 % 256,
      p.receive_timestamp.1.toNat % 256,
      p.receive_timestamp.2.toNat / 16777216 % 256,
      p.receive_timestamp.2.toNat / 65536 % 256,
      p.receive_timestamp.2.toNat / 256 % 256,
      p.receive_timestamp.2.toNat % 256,
      p.transmit_timestamp.1.toNat / 16777216 % 256,
      p.transmit_timestamp.1.toNat / 65536 % 256,
      p.transmit_timestamp.1.toNat / 256 % 256,
      p.transmit_timestamp.1.toNat % 256,
      p.transmit_timestamp.2.toNat / 16777216 % 256,
      p.transmit_timestamp.2.toNat / 65536 % 256,
      p.transmit_timestamp.2.toNat / 256 % 256,
      p.transmit_timestamp.2.toNat % 256] := by
  rw [to_bytes, get_packet_format, get_packet_value]
  simp only [List.replicate, List.cons_append, List.nil_append]
  simp only [packFields, packField]
  rw [packUByte_in_range he0 he1,
    packUByte_in_range hs0 hs1,
    packUByte_in_range hp0 hp1,
    packUByte_in_range hq0 hq1,
    packUInt_in_range hu0a hu0b,
    packUInt_in_range hu1a hu1b,
    packUInt_in_range hu2a hu2b,
    packUInt_in_range hu3a hu3b,
    packUInt_in_range hu4a hu4b,
    packUInt_in_range hu5a hu5b,
    packUInt_in_range hu6a hu6b,
    packUInt_in_range hu7a hu7b,
    packUInt_in_range hu8a hu8b,
    packUInt_in_range hu9a hu9b,
    packUInt_in_range hu10a hu10b]
  simp [packFields, packField]


/-- The packet produced by decoding an explicit 48-entry buffer
(proof-side abbreviation for the record built in `from_bytes`). -/
def decoded_packet (g0 g1 g2 g3 g4 g5 g6 g7 g8 g9 g10 g11 g12 g13 g14 g15 g16 g17 g18 g19 g20 g21 g22 g23 g24 g25 g26 g27 g28 g29 g30 g31 g32 g33 g34 g35 g36 g37 g38 g39 g40 g41 g42 g43 g44 g45 g46 g47 : ℕ) : SNTP_Packet :=
  { li := ((decode_li_vn_mode g0).1 : ℤ),
    vn := ((decode_li_vn_mode g0).2.1 : ℤ),
    mode := ((decode_li_vn_mode g0).2.2 : ℤ),
    stratum := (g1 : ℤ), poll := (g2 : ℤ), precision := (g3 : ℤ),
    root_delay := ((g4 * 16777216 + g5 * 65536 + g6 * 256 + g7 : ℕ) : ℤ),
    root_dispersion := ((g8 * 16777216 + g9 * 65536 + g10 * 256 + g11 : ℕ) : ℤ),
    reference_identifier := ((g12 * 16777216 + g13 * 65536 + g14 * 256 + g15 : ℕ) : ℤ),
    reference_timestamp := (((g16 * 16777216 + g17 * 65536 + g18 * 256 + g19 : ℕ) : ℤ), ((g20 * 16777216 + g21 * 65536 + g22 * 256 + g23 : ℕ) : ℤ)),
    originate_timestamp := (((g24 * 16777216 + g25 * 65536 + g26 * 256 + g27 : ℕ) : ℤ), ((g28 * 16777216 + g29 * 65536 + g30 * 256 + g31 : ℕ) : ℤ)),
    receive_timestamp := (((g32 * 16777216 + g33 * 65536 + g34 * 256 + g35 : ℕ) : ℤ), ((g36 * 16777216 + g37 * 65536 + g38 * 256 + g39 : ℕ) : ℤ)),
    transmit_timestamp := (((g40 * 16777216 + g41 * 65536 + g42 * 256 + g43 : ℕ) : ℤ), ((g44 * 16777216 + g45 * 65536 + g46 * 256 + g47 : ℕ) : ℤ)) }

/-- `from_bytes` on an explicit 48-entry buffer. -/
lemma from_bytes_explicit (g0 g1 g2 g3 g4 g5 g6 g7 g8 g9 g10 g11 g12 g13 g14 g15 g16 g17 g18 g19 g20 g21 g22 g23 g24 g25 g26 g27 g28 g29 g30 g31 g32 g33 g34 g35 g36 g37 g38 g39 g40 g41 g42 g43 g44 g45 g46 g47 : ℕ) :
    from_bytes [g0, g1, g2, g3, g4, g5, g6, g7, g8, g9, g10, g11, g12, g13, g14, g15, g16, g17, g18, g19, g20, g21, g22, g23, g24, g25, g26, g27, g28, g29, g30, g31, g32, g33, g34, g35, g36, g37, g38, g39, g40, g41, g42, g43, g44, g45, g46, g47] = some (decoded_packet g0 g1 g2 g3 g4 g5 g6 g7 g8 g9 g10 g11 g12 g13 g14 g15 g16 g17 g18 g19 g20 g21 g22 g23 g24 g25 g26 g27 g28 g29 g30 g31 g32 g33 g34 g35 g36 g37 g38 g39 g40 g41 g42 g43 g44 g45 g46 g47) := rfl

/-- A concrete in-range packet used as witness input. -/
def pW1 : SNTP_Packet :=
  { li := 1, vn := 4, mode := 3, stratum := 2, poll := 6, precision := 250,
    root_delay := 66051, root_dispersion := 4294967295,
    reference_identifier := 305419896,
    reference_timestamp := (1, 4294967295), originate_timestamp := (0, 2),
    receive_timestamp := (16909060, 7),
    transmit_timestamp := (4042388211, 2208988800) }

/-- C1 (amended: the code packs `precision` with unsigned format `B`, so the
valid range for `precision` is [0,255], not [-128,127]): for every packet
whose fields are within the packed widths — li in [0,3], vn in [0,7],
mode in [0,7], stratum/poll/precision in [0,255], each 32-bit field and
each timestamp component in [0,2^32) — deserializing the serialization
reproduces the packet exactly, field for field, including the composite
li/vn/mode byte. -/
theorem C1_serialize_deserialize_roundtrip (p : SNTP_Packet)
    (h : 0 ≤ p.li ∧ p.li ≤ 3 ∧
      0 ≤ p.vn ∧ p.vn ≤ 7 ∧
      0 ≤ p.mode ∧ p.mode ≤ 7 ∧
      0 ≤ p.stratum ∧ p.stratum ≤ 255 ∧
      0 ≤ p.poll ∧ p.poll ≤ 255 ∧
      0 ≤ p.precision ∧ p.precision ≤ 255 ∧
      0 ≤ p.root_delay ∧ p.root_delay < 4294967296 ∧
      0 ≤ p.root_dispersion ∧ p.root_dispersion < 4294967296 ∧
      0 ≤ p.reference_identifier ∧ p.reference_identifier < 4294967296 ∧
      0 ≤ p.reference_timestamp.1 ∧ p.reference_timestamp.1 < 4294967296 ∧
      0 ≤ p.reference_timestamp.2 ∧ p.reference_timestamp.2 < 4294967296 ∧
      0 ≤ p.originate_timestamp.1 ∧ p.originate_timestamp.1 < 4294967296 ∧
      0 ≤ p.originate_timestamp.2 ∧ p.originate_timestamp.2 < 4294967296 ∧
      0 ≤ p.receive_timestamp.1 ∧ p.receive_timestamp.1 < 4294967296 ∧
      0 ≤ p.receive_timestamp.2 ∧ p.receive_timestamp.2 < 4294967296 ∧
      0 ≤ p.transmit_timestamp.1 ∧ p.transmit_timestamp.1 < 4294967296 ∧
      0 ≤ p.transmit_timestamp.2 ∧ p.transmit_timestamp.2 < 4294967296) :
    (to_bytes p).bind from_bytes = some p := by
  obtain ⟨hli0, hli1, hvn0, hvn1, hmo0, hmo1, hst0, hst1, hpo0, hpo1, hpr0, hpr1, hu0a, hu0b, hu1a, hu1b, hu2a, hu2b, hu3a, hu3b, hu4a, hu4b, hu5a, hu5b, hu6a, hu6b, hu7a, hu7b, hu8a, hu8b, hu9a, hu9b, hu10a, hu10b⟩ := h
  have hE : encode_li_vn_mode p = p.li * 64 + p.vn * 8 + p.mode := rfl
  have he0 : 0 ≤ encode_li_vn_mode p := by rw [hE]; omega
  have he1 : encode_li_vn_mode p ≤ 255 := by rw [hE]; omega
  rw [to_bytes_in_range p he0 he1 hst0 hst1 hpo0 hpo1 hpr0 hpr1 hu0a hu0b hu1a hu1b hu2a hu2b hu3a hu3b hu4a hu4b hu5a hu5b hu6a hu6b hu7a hu7b hu8a hu8b hu9a hu9b hu10a hu10b]
  rw [Option.some_bind, from_bytes_explicit]
  simp only [decoded_packet]
  have hEN : (encode_li_vn_mode p).toNat
      = p.li.toNat * 64 + p.vn.toNat * 8 + p.mode.toNat := by
    rw [hE]; omega
  have hdec : decode_li_vn_mode (encode_li_vn_mode p).toNat
      = (p.li.toNat, p.vn.toNat, p.mode.toNat) := by
    rw [hEN]
    exact decode_encode_lvm _ (by omega) _ (by omega) _ (by omega)
  rw [hdec]
  obtain ⟨li, vn, mode, st, po, pr, rd, rdi, ri, ⟨r1, r2⟩, ⟨o1, o2⟩, ⟨c1, c2⟩, ⟨t1, t2⟩⟩ := p
  simp only [Option.some.injEq, SNTP_Packet.mk.injEq, Prod.mk.injEq] at *
  omega

/-- Counterexample to C1 as stated: the packet with `precision = -1`
(within the claimed signed range [-128,127], every other field zero and in
range) does not round-trip: `to_bytes` raises `struct.error` (modelled as
`none`) because the packed format for precision is the unsigned `B`. -/
theorem C1_serialize_deserialize_roundtrip_counterexample :
    to_bytes { init_packet with precision := -1 } = none ∧
    (to_bytes { init_packet with precision := -1 }).bind from_bytes ≠
      some { init_packet with precision := -1 } := by decide

/-- Witness for C1 at a concrete in-range packet. -/
theorem C1_serialize_deserialize_roundtrip_witness :
    (0 ≤ pW1.li ∧ pW1.li ≤ 3 ∧
      0 ≤ pW1.vn ∧ pW1.vn ≤ 7 ∧
      0 ≤ pW1.mode ∧ pW1.mode ≤ 7 ∧
      0 ≤ pW1.stratum ∧ pW1.stratum ≤ 255 ∧
      0 ≤ pW1.poll ∧ pW1.poll ≤ 255 ∧
      0 ≤ pW1.precision ∧ pW1.precision ≤ 255 ∧
      0 ≤ pW1.root_delay ∧ pW1.root_delay < 4294967296 ∧
      0 ≤ pW1.root_dispersion ∧ pW1.root_dispersion < 4294967296 ∧
      0 ≤ pW1.reference_identifier ∧ pW1.reference_identifier < 4294967296 ∧
      0 ≤ pW1.reference_timestamp.1 ∧ pW1.reference_timestamp.1 < 4294967296 ∧
      0 ≤ pW1.reference_timestamp.2 ∧ pW1.reference_timestamp.2 < 4294967296 ∧
      0 ≤ pW1.originate_timestamp.1 ∧ pW1.originate_timestamp.1 < 4294967296 ∧
      0 ≤ pW1.originate_timestamp.2 ∧ pW1.originate_timestamp.2 < 4294967296 ∧
      0 ≤ pW1.receive_timestamp.1 ∧ pW1.receive_timestamp.1 < 4294967296 ∧
      0 ≤ pW1.receive_timestamp.2 ∧ pW1.receive_timestamp.2 < 4294967296 ∧
      0 ≤ pW1.transmit_timestamp.1 ∧ pW1.transmit_timestamp.1 < 4294967296 ∧
      0 ≤ pW1.transmit_timestamp.2 ∧ pW1.transmit_timestamp.2 < 4294967296) ∧
    (to_bytes pW1).bind from_bytes = some pW1 :=
  ⟨by decide, C1_serialize_deserialize_roundtrip pW1 (by decide)⟩

/-- Re-serializing the packet decoded from 48 in-range bytes reproduces
the bytes. -/
lemma to_bytes_decoded (g0 g1 g2 g3 g4 g5 g6 g7 g8 g9 g10 g11 g12 g13 g14 g15 g16 g17 g18 g19 g20 g21 g22 g23 g24 g25 g26 g27 g28 g29 g30 g31 g32 g33 g34 g35 g36 g37 g38 g39 g40 g41 g42 g43 g44 g45 g46 g47 : ℕ)
    (hb : g0 < 256 ∧ g1 < 256 ∧ g2 < 256 ∧ g3 < 256 ∧ g4 < 256 ∧ g5 < 256 ∧ g6 < 256 ∧ g7 < 256 ∧ g8 < 256 ∧ g9 < 256 ∧ g10 < 256 ∧ g11 < 256 ∧ g12 < 256 ∧ g13 < 256 ∧ g14 < 256 ∧ g15 < 256 ∧ g16 < 256 ∧ g17 < 256 ∧ g18 < 256 ∧ g19 < 256 ∧ g20 < 256 ∧ g21 < 256 ∧ g22 < 256 ∧ g23 < 256 ∧ g24 < 256 ∧ g25 < 256 ∧ g26 < 256 ∧ g27 < 256 ∧ g28 < 256 ∧ g29 < 256 ∧ g30 < 256 ∧ g31 < 256 ∧ g32 < 256 ∧ g33 < 256 ∧ g34 < 256 ∧ g35 < 256 ∧ g36 < 256 ∧ g37 < 256 ∧ g38 < 256 ∧ g39 < 256 ∧ g40 < 256 ∧ g41 < 256 ∧ g42 < 256 ∧ g43 < 256 ∧ g44 < 256 ∧ g45 < 256 ∧ g46 < 256 ∧ g47 < 256) :
    to_bytes (decoded_packet g0 g1 g2 g3 g4 g5 g6 g7 g8 g9 g10 g11 g12 g13 g14 g15 g16 g17 g18 g19 g20 g21 g22 g23 g24 g25 g26 g27 g28 g29 g30 g31 g32 g33 g34 g35 g36 g37 g38 g39 g40 g41 g42 g43 g44 g45 g46 g47) = some [g0, g1, g2, g3, g4, g5, g6, g7, g8, g9, g10, g11, g12, g13, g14, g15, g16, g17, g18, g19, g20, g21, g22, g23, g24, g25, g26, g27, g28, g29, g30, g31, g32, g33, g34, g35, g36, g37, g38, g39, g40, g41, g42, g43, g44, g45, g46, g47] := by
  obtain ⟨hg0, hg1, hg2, hg3, hg4, hg5, hg6, hg7, hg8, hg9, hg10, hg11, hg12, hg13, hg14, hg15, hg16, hg17, hg18, hg19, hg20, hg21, hg22, hg23, hg24, hg25, hg26, hg27, hg28, hg29, hg30, hg31, hg32, hg33, hg34, hg35, hg36, hg37, hg38, hg39, hg40, hg41, hg42, hg43, hg44, hg45, hg46, hg47⟩ := hb
  have hsum := encode_decode_lvm g0 (by omega)
  have hrange := decode_lvm_range g0 (by omega)
  have hE : encode_li_vn_mode (decoded_packet g0 g1 g2 g3 g4 g5 g6 g7 g8 g9 g10 g11 g12 g13 g14 g15 g16 g17 g18 g19 g20 g21 g22 g23 g24 g25 g26 g27 g28 g29 g30 g31 g32 g33 g34 g35 g36 g37 g38 g39 g40 g41 g42 g43 g44 g45 g46 g47)
      = ((decode_li_vn_mode g0).1 : ℤ) * 64 +
        ((decode_li_vn_mode g0).2.1 : ℤ) * 8 +
        ((decode_li_vn_mode g0).2.2 : ℤ) := rfl
  have he0 : 0 ≤ encode_li_vn_mode (decoded_packet g0 g1 g2 g3 g4 g5 g6 g7 g8 g9 g10 g11 g12 g13 g14 g15 g16 g17 g18 g19 g20 g21 g22 g23 g24 g25 g26 g27 g28 g29 g30 g31 g32 g33 g34 g35 g36 g37 g38 g39 g40 g41 g42 g43 g44 g45 g46 g47) := by rw [hE]; omega
  have he1 : encode_li_vn_mode (decoded_packet g0 g1 g2 g3 g4 g5 g6 g7 g8 g9 g10 g11 g12 g13 g14 g15 g16 g17 g18 g19 g20 g21 g22 g23 g24 g25 g26 g27 g28 g29 g30 g31 g32 g33 g34 g35 g36 g37 g38 g39 g40 g41 g42 g43 g44 g45 g46 g47) ≤ 255 := by rw [hE]; omega
  rw [to_bytes_in_range (decoded_packet g0 g1 g2 g3 g4 g5 g6 g7 g8 g9 g10 g11 g12 g13 g14 g15 g16 g17 g18 g19 g20 g21 g22 g23 g24 g25 g26 g27 g28 g29 g30 g31 g32 g33 g34 g35 g36 g37 g38 g39 g40 g41 g42 g43 g44 g45 g46 g47) he0 he1
    (show (0:ℤ) ≤ ((g1 : ℕ) : ℤ) by omega)
    (show ((g1 : ℕ) : ℤ) ≤ 255 by omega)
    (show (0:ℤ) ≤ ((g2 : ℕ) : ℤ) by omega)
    (show ((g2 : ℕ) : ℤ) ≤ 255 by omega)
    (show (0:ℤ) ≤ ((g3 : ℕ) : ℤ) by omega)
    (show ((g3 : ℕ) : ℤ) ≤ 255 by omega)
    (show (0:ℤ) ≤ ((g4 * 16777216 + g5 * 65536 + g6 * 256 + g7 : ℕ) : ℤ) by omega)
    (show ((g4 * 16777216 + g5 * 65536 + g6 * 256 + g7 : ℕ) : ℤ) < 4294967296 by omega)
    (show (0:ℤ) ≤ ((g8 * 16777216 + g9 * 65536 + g10 * 256 + g11 : ℕ) : ℤ) by omega)
    (show ((g8 * 16777216 + g9 * 65536 + g10 * 256 + g11 : ℕ) : ℤ) < 4294967296 by omega)
    (show (0:ℤ) ≤ ((g12 * 16777216 + g13 * 65536 + g14 * 256 + g15 : ℕ) : ℤ) by omega)
    (show ((g12 * 16777216 + g13 * 65536 + g14 * 256 + g15 : ℕ) : ℤ) < 4294967296 by omega)
    (show (0:ℤ) ≤ ((g16 * 16777216 + g17 * 65536 + g18 * 256 + g19 : ℕ) : ℤ) by omega)
    (show ((g16 * 16777216 + g17 * 65536 + g18 * 256 + g19 : ℕ) : ℤ) < 4294967296 by omega)
    (show (0:ℤ) ≤ ((g20 * 16777216 + g21 * 65536 + g22 * 256 + g23 : ℕ) : ℤ) by omega)
    (show ((g20 * 16777216 + g21 * 65536 + g22 * 256 + g23 : ℕ) : ℤ) < 4294967296 by omega)
    (show (0:ℤ) ≤ ((g24 * 16777216 + g25 * 65536 + g26 * 256 + g27 : ℕ) : ℤ) by omega)
    (show ((g24 * 16777216 + g25 * 65536 + g26 * 256 + g27 : ℕ) : ℤ) < 4294967296 by omega)
    (show (0:ℤ) ≤ ((g28 * 16777216 + g29 * 65536 + g30 * 256 + g31 : ℕ) : ℤ) by omega)
    (show ((g28 * 16777216 + g29 * 65536 + g30 * 256 + g31 : ℕ) : ℤ) < 4294967296 by omega)
    (show (0:ℤ) ≤ ((g32 * 16777216 + g33 * 65536 + g34 * 256 + g35 : ℕ) : ℤ) by omega)
    (show ((g32 * 16777216 + g33 * 65536 + g34 * 256 + g35 : ℕ) : ℤ) < 4294967296 by omega)
    (show (0:ℤ) ≤ ((g36 * 16777216 + g37 * 65536 + g38 * 256 + g39 : ℕ) : ℤ) by omega)
    (show ((g36 * 16777216 + g37 * 65536 + g38 * 256 + g39 : ℕ) : ℤ) < 4294967296 by omega)
    (show (0:ℤ) ≤ ((g40 * 16777216 + g41 * 65536 + g42 * 256 + g43 : ℕ) : ℤ) by omega)
    (show ((g40 * 16777216 + g41 * 65536 + g42 * 256 + g43 : ℕ) : ℤ) < 4294967296 by omega)
    (show (0:ℤ) ≤ ((g44 * 16777216 + g45 * 65536 + g46 * 256 + g47 : ℕ) : ℤ) by omega)
    (show ((g44 * 16777216 + g45 * 65536 + g46 * 256 + g47 : ℕ) : ℤ) < 4294967296 by omega)]
  have hENN : (encode_li_vn_mode (decoded_packet g0 g1 g2 g3 g4 g5 g6 g7 g8 g9 g10 g11 g12 g13 g14 g15 g16 g17 g18 g19 g20 g21 g22 g23 g24 g25 g26 g27 g28 g29 g30 g31 g32 g33 g34 g35 g36 g37 g38 g39 g40 g41 g42 g43 g44 g45 g46 g47)).toNat = g0 := by rw [hE]; omega
  rw [hENN]
  simp only [decoded_packet, Option.some.injEq, List.cons.injEq, true_and,
    and_true]
  omega

/-- C9: for every 48-byte buffer, re-serializing the decoded packet
reproduces the buffer byte for byte: every decoded field is within its
packed width and re-encoding the composite li/vn/mode byte from its
decoded parts reconstructs the original byte. -/
theorem C9_deserialize_serialize_roundtrip (b : List ℕ)
    (h48 : b.length = 48) (hbyte : ∀ x ∈ b, x < 256) :
    (from_bytes b).bind to_bytes = some b := by
  rcases b with _ | ⟨g0, b⟩; · simp at h48
  rcases b with _ | ⟨g1, b⟩; · simp at h48
  rcases b with _ | ⟨g2, b⟩; · simp at h48
  rcases b with _ | ⟨g3, b⟩; · simp at h48
  rcases b with _ | ⟨g4, b⟩; · simp at h48
  rcases b with _ | ⟨g5, b⟩; · simp at h48
  rcases b with _ | ⟨g6, b⟩; · simp at h48
  rcases b with _ | ⟨g7, b⟩; · simp at h48
  rcases b with _ | ⟨g8, b⟩; · simp at h48
  rcases b with _ | ⟨g9, b⟩; · simp at h48
  rcases b with _ | ⟨g10, b⟩; · simp at h48
  rcases b with _ | ⟨g11, b⟩; · simp at h48
  rcases b with _ | ⟨g12, b⟩; · simp at h48
  rcases b with _ | ⟨g13, b⟩; · simp at h48
  rcases b with _ | ⟨g14, b⟩; · simp at h48
  rcases b with _ | ⟨g15, b⟩; · simp at h48
  rcases b with _ | ⟨g16, b⟩; · simp at h48
  rcases b with _ | ⟨g17, b⟩; · simp at h48
  rcases b with _ | ⟨g18, b⟩; · simp at h48
  rcases b with _ | ⟨g19, b⟩; · simp at h48
  rcases b with _ | ⟨g20, b⟩; · simp at h48
  rcases b with _ | ⟨g21, b⟩; · simp at h48
  rcases b with _ | ⟨g22, b⟩; · simp at h48
  rcases b with _ | ⟨g23, b⟩; · simp at h48
  rcases b with _ | ⟨g24, b⟩; · simp at h48
  rcases b with _ | ⟨g25, b⟩; · simp at h48
  rcases b with _ | ⟨g26, b⟩; · simp at h48
  rcases b with _ | ⟨g27, b⟩; · simp at h48
  rcases b with _ | ⟨g28, b⟩; · simp at h48
  rcases b with _ | ⟨g29, b⟩; · simp at h48
  rcases b with _ | ⟨g30, b⟩; · simp at h48
  rcases b with _ | ⟨g31, b⟩; · simp at h48
  rcases b with _ | ⟨g32, b⟩; · simp at h48
  rcases b with _ | ⟨g33, b⟩; · simp at h48
  rcases b with _ | ⟨g34, b⟩; · simp at h48
  rcases b with _ | ⟨g35, b⟩; · simp at h48
  rcases b with _ | ⟨g36, b⟩; · simp at h48
  rcases b with _ | ⟨g37, b⟩; · simp at h48
  rcases b with _ | ⟨g38, b⟩; · simp at h48
  rcases b with _ | ⟨g39, b⟩; · simp at h48
  rcases b with _ | ⟨g40, b⟩; · simp at h48
  rcases b with _ | ⟨g41, b⟩; · simp at h48
  rcases b with _ | ⟨g42, b⟩; · simp at h48
  rcases b with _ | ⟨g43, b⟩; · simp at h48
  rcases b with _ | ⟨g44, b⟩; · simp at h48
  rcases b with _ | ⟨g45, b⟩; · simp at h48
  rcases b with _ | ⟨g46, b⟩; · simp at h48
  rcases b with _ | ⟨g47, b⟩; · simp at h48
  have hnil : b = [] := by
    simp only [List.length_cons] at h48
    exact List.length_eq_zero.mp (by omega)
  subst hnil
  have hg0 : g0 < 256 := hbyte g0 (by simp)
  have hg1 : g1 < 256 := hbyte g1 (by simp)
  have hg2 : g2 < 256 := hbyte g2 (by simp)
  have hg3 : g3 < 256 := hbyte g3 (by simp)
  have hg4 : g4 < 256 := hbyte g4 (by simp)
  have hg5 : g5 < 256 := hbyte g5 (by simp)
  have hg6 : g6 < 256 := hbyte g6 (by simp)
  have hg7 : g7 < 256 := hbyte g7 (by simp)
  have hg8 : g8 < 256 := hbyte g8 (by simp)
  have hg9 : g9 < 256 := hbyte g9 (by simp)
  have hg10 : g10 < 256 := hbyte g10 (by simp)
  have hg11 : g11 < 256 := hbyte g11 (by simp)
  have hg12 : g12 < 256 := hbyte g12 (by simp)
  have hg13 : g13 < 256 := hbyte g13 (by simp)
  have hg14 : g14 < 256 := hbyte g14 (by simp)
  have hg15 : g15 < 256 := hbyte g15 (by simp)
  have hg16 : g16 < 256 := hbyte g16 (by simp)
  have hg17 : g17 < 256 := hbyte g17 (by simp)
  have hg18 : g18 < 256 := hbyte g18 (by simp)
  have hg19 : g19 < 256 := hbyte g19 (by simp)
  have hg20 : g20 < 256 := hbyte g20 (by simp)
  have hg21 : g21 < 256 := hbyte g21 (by simp)
  have hg22 : g22 < 256 := hbyte g22 (by simp)
  have hg23 : g23 < 256 := hbyte g23 (by simp)
  have hg24 : g24 < 256 := hbyte g24 (by simp)
  have hg25 : g25 < 256 := hbyte g25 (by simp)
  have hg26 : g26 < 256 := hbyte g26 (by simp)
  have hg27 : g27 < 256 := hbyte g27 (by simp)
  have hg28 : g28 < 256 := hbyte g28 (by simp)
  have hg29 : g29 < 256 := hbyte g29 (by simp)
  have hg30 : g30 < 256 := hbyte g30 (by simp)
  have hg31 : g31 < 256 := hbyte g31 (by simp)
  have hg32 : g32 < 256 := hbyte g32 (by simp)
  have hg33 : g33 < 256 := hbyte g33 (by simp)
  have hg34 : g34 < 256 := hbyte g34 (by simp)
  have hg35 : g35 < 256 := hbyte g35 (by simp)
  have hg36 : g36 < 256 := hbyte g36 (by simp)
  have hg37 : g37 < 256 := hbyte g37 (by simp)
  have hg38 : g38 < 256 := hbyte g38 (by simp)
  have hg39 : g39 < 256 := hbyte g39 (by simp)
  have hg40 : g40 < 256 := hbyte g40 (by simp)
  have hg41 : g41 < 256 := hbyte g41 (by simp)
  have hg42 : g42 < 256 := hbyte g42 (by simp)
  have hg43 : g43 < 256 := hbyte g43 (by simp)
  have hg44 : g44 < 256 := hbyte g44 (by simp)
  have hg45 : g45 < 256 := hbyte g45 (by simp)
  have hg46 : g46 < 256 := hbyte g46 (by simp)
  have hg47 : g47 < 256 := hbyte g47 (by simp)
  rw [from_bytes_explicit, Option.some_bind]
  exact to_bytes_decoded g0 g1 g2 g3 g4 g5 g6 g7 g8 g9 g10 g11 g12 g13 g14 g15 g16 g17 g18 g19 g20 g21 g22 g23 g24 g25 g26 g27 g28 g29 g30 g31 g32 g33 g34 g35 g36 g37 g38 g39 g40 g41 g42 g43 g44 g45 g46 g47 ⟨hg0, hg1, hg2, hg3, hg4, hg5, hg6, hg7, hg8, hg9, hg10, hg11, hg12, hg13, hg14, hg15, hg16, hg17, hg18, hg19, hg20, hg21, hg22, hg23, hg24, hg25, hg26, hg27, hg28, hg29, hg30, hg31, hg32, hg33, hg34, hg35, hg36, hg37, hg38, hg39, hg40, hg41, hg42, hg43, hg44, hg45, hg46, hg47⟩

/-- C4 (amended: CPython 3's `struct.pack` raises `struct.error` on a
value that overflows its field width — it does not truncate): `to_bytes`
never fails when every field value is within its declared width, and a
stratum value above 255 makes `to_bytes` fail rather than wrap. -/
theorem C4_encode_overflow_behavior :
    (∀ p : SNTP_Packet,
      (0 ≤ p.li ∧ p.li ≤ 3 ∧
      0 ≤ p.vn ∧ p.vn ≤ 7 ∧
      0 ≤ p.mode ∧ p.mode ≤ 7 ∧
      0 ≤ p.stratum ∧ p.stratum ≤ 255 ∧
      0 ≤ p.poll ∧ p.poll ≤ 255 ∧
      0 ≤ p.precision ∧ p.precision ≤ 255 ∧
      0 ≤ p.root_delay ∧ p.root_delay < 4294967296 ∧
      0 ≤ p.root_dispersion ∧ p.root_dispersion < 4294967296 ∧
      0 ≤ p.reference_identifier ∧ p.reference_identifier < 4294967296 ∧
      0 ≤ p.reference_timestamp.1 ∧ p.reference_timestamp.1 < 4294967296 ∧
      0 ≤ p.reference_timestamp.2 ∧ p.reference_timestamp.2 < 4294967296 ∧
      0 ≤ p.originate_timestamp.1 ∧ p.originate_timestamp.1 < 4294967296 ∧
      0 ≤ p.originate_timestamp.2 ∧ p.originate_timestamp.2 < 4294967296 ∧
      0 ≤ p.receive_timestamp.1 ∧ p.receive_timestamp.1 < 4294967296 ∧
      0 ≤ p.receive_timestamp.2 ∧ p.receive_timestamp.2 < 4294967296 ∧
      0 ≤ p.transmit_timestamp.1 ∧ p.transmit_timestamp.1 < 4294967296 ∧
      0 ≤ p.transmit_timestamp.2 ∧ p.transmit_timestamp.2 < 4294967296) →
      (to_bytes p).isSome = true) ∧
    (∀ p : SNTP_Packet, 255 < p.stratum → to_bytes p = none) := by
  constructor
  · intro p h
    obtain ⟨hli0, hli1, hvn0, hvn1, hmo0, hmo1, hst0, hst1, hpo0, hpo1, hpr0, hpr1, hu0a, hu0b, hu1a, hu1b, hu2a, hu2b, hu3a, hu3b, hu4a, hu4b, hu5a, hu5b, hu6a, hu6b, hu7a, hu7b, hu8a, hu8b, hu9a, hu9b, hu10a, hu10b⟩ := h
    have hE : encode_li_vn_mode p = p.li * 64 + p.vn * 8 + p.mode := rfl
    have he0 : 0 ≤ encode_li_vn_mode p := by rw [hE]; omega
    have he1 : encode_li_vn_mode p ≤ 255 := by rw [hE]; omega
    rw [to_bytes_in_range p he0 he1 hst0 hst1 hpo0 hpo1 hpr0 hpr1 hu0a hu0b hu1a hu1b hu2a hu2b hu3a hu3b hu4a hu4b hu5a hu5b hu6a hu6b hu7a hu7b hu8a hu8b hu9a hu9b hu10a hu10b]
    rfl
  · intro p hst
    have hnone : packUByte p.stratum = none := by
      rw [packUByte, if_neg]
      omega
    cases hE : packUByte (encode_li_vn_mode p) <;>
      simp [to_bytes, get_packet_format, get_packet_value, packFields,
        packField, hE, hnone]

/-- Counterexample to C4 as stated: serializing the packet with
`stratum = 256` fails (struct.error, modelled as `none`) instead of
silently truncating the value to the byte 0. -/
theorem C4_encode_overflow_counterexample :
    to_bytes { init_packet with stratum := 256 } = none := by decide

/-- Witness for C4: a fully in-range packet serializes, and a packet with
stratum 256 fails. -/
theorem C4_encode_overflow_behavior_witness :
    ((0 ≤ pW1.li ∧ pW1.li ≤ 3 ∧
      0 ≤ pW1.vn ∧ pW1.vn ≤ 7 ∧
      0 ≤ pW1.mode ∧ pW1.mode ≤ 7 ∧
      0 ≤ pW1.stratum ∧ pW1.stratum ≤ 255 ∧
      0 ≤ pW1.poll ∧ pW1.poll ≤ 255 ∧
      0 ≤ pW1.precision ∧ pW1.precision ≤ 255 ∧
      0 ≤ pW1.root_delay ∧ pW1.root_delay < 4294967296 ∧
      0 ≤ pW1.root_dispersion ∧ pW1.root_dispersion < 4294967296 ∧
      0 ≤ pW1.reference_identifier ∧ pW1.reference_identifier < 4294967296 ∧
      0 ≤ pW1.reference_timestamp.1 ∧ pW1.reference_timestamp.1 < 4294967296 ∧
      0 ≤ pW1.reference_timestamp.2 ∧ pW1.reference_timestamp.2 < 4294967296 ∧
      0 ≤ pW1.originate_timestamp.1 ∧ pW1.originate_timestamp.1 < 4294967296 ∧
      0 ≤ pW1.originate_timestamp.2 ∧ pW1.originate_timestamp.2 < 4294967296 ∧
      0 ≤ pW1.receive_timestamp.1 ∧ pW1.receive_timestamp.1 < 4294967296 ∧
      0 ≤ pW1.receive_timestamp.2 ∧ pW1.receive_timestamp.2 < 4294967296 ∧
      0 ≤ pW1.transmit_timestamp.1 ∧ pW1.transmit_timestamp.1 < 4294967296 ∧
      0 ≤ pW1.transmit_timestamp.2 ∧ pW1.transmit_timestamp.2 < 4294967296) ∧
      (to_bytes pW1).isSome = true) ∧
    (255 < ({ init_packet with stratum := 256 } : SNTP_Packet).stratum ∧
      to_bytes ({ init_packet with stratum := 256 } : SNTP_Packet) = none) :=
  ⟨⟨by decide, C4_encode_overflow_behavior.1 pW1 (by decide)⟩,
   ⟨by decide, C4_encode_overflow_behavior.2 _ (by decide)⟩⟩

/-! ### Claim theorems: clock-offset formula and client packet -/

/-- Counterexample to C3 as stated: with the four timestamp pairs supplied
positionally as t1 = (0,0), t2 = (1,0), t3 = (1,0), t4 = (0,0) — the
claimed positional order (client transmit, server receive, server
transmit, client receive) — the result is 0, not the claimed 1.0 second,
because the code's second positional parameter is the client reception
time and its fourth is the server reception time. -/
theorem C3_compute_offset_counterexample :
    compute_offset (0, 0) (1, 0) (1, 0) (0, 0) = 0 ∧
    compute_offset (0, 0) (1, 0) (1, 0) (0, 0) ≠ 1 := by
  constructor <;> norm_num [compute_offset]

/-- C3 (corrected: the positional parameter order of `compute_offset` is
t1 = client transmit, t4 = client receive, t3 = server transmit,
t2 = server receive): called as `compute_offset t1 t4 t3 t2` it returns
((t2.seconds - t1.seconds) + (t2.fraction - t1.fraction)/2^32 +
(t3.seconds - t4.seconds) + (t3.fraction - t4.fraction)/2^32) / 2, with
the fraction differences signed, total over all inputs; in particular
`compute_offset (0,0) (0,0) (1,0) (1,0) = 1`. -/
theorem C3_compute_offset_formula :
    (∀ t1 t4 t3 t2 : ℤ × ℤ,
      compute_offset t1 t4 t3 t2 =
        (((t2.1 : ℚ) - (t1.1 : ℚ)) + ((t2.2 : ℚ) - (t1.2 : ℚ)) / 4294967296 +
          ((t3.1 : ℚ) - (t4.1 : ℚ)) + ((t3.2 : ℚ) - (t4.2 : ℚ)) / 4294967296) / 2) ∧
    compute_offset (0, 0) (0, 0) (1, 0) (1, 0) = 1 := by
  constructor
  · intro t1 t4 t3 t2
    unfold compute_offset
    push_cast
    ring
  · norm_num [compute_offset]

/-- C8: for any fixed current time `now`, the client request packet has
li = 0, vn = 4, mode = 3, every other scalar field zero, the reference,
originate and receive timestamp pairs (0, 0), and the transmit timestamp
equal to `encode_ntp_timestamp now`. -/
theorem C8_client_packet_fields (now : ℚ) :
    (client_packet now).li = 0 ∧ (client_packet now).vn = 4 ∧
    (client_packet now).mode = 3 ∧ (client_packet now).stratum = 0 ∧
    (client_packet now).poll = 0 ∧ (client_packet now).precision = 0 ∧
    (client_packet now).root_delay = 0 ∧
    (client_packet now).root_dispersion = 0 ∧
    (client_packet now).reference_identifier = 0 ∧
    (client_packet now).reference_timestamp = (0, 0) ∧
    (client_packet now).originate_timestamp = (0, 0) ∧
    (client_packet now).receive_timestamp = (0, 0) ∧
    (client_packet now).transmit_timestamp = encode_ntp_timestamp now :=
  ⟨rfl, rfl, rfl, rfl, rfl, rfl, rfl, rfl, rfl, rfl, rfl, rfl, rfl⟩

/-! ### Helper lemmas for the NTP timestamp conversions -/

lemma encode_in_range (t : ℚ) (h1 : 0 ≤ t - get_ntp_timestamp_offset) :
    encode_ntp_timestamp t =
      (⌊t - get_ntp_timestamp_offset⌋,
       ⌊(t - get_ntp_timestamp_offset -
          (⌊t - get_ntp_timestamp_offset⌋ : ℚ)) * 4294967296⌋) := by
  have h2 : 0 ≤ (t - get_ntp_timestamp_offset -
      (⌊t - get_ntp_timestamp_offset⌋ : ℚ)) * 4294967296 := by
    have hfl := Int.floor_le (t - get_ntp_timestamp_offset)
    have hnn : 0 ≤ t - get_ntp_timestamp_offset -
        (⌊t - get_ntp_timestamp_offset⌋ : ℚ) := by linarith
    exact mul_nonneg hnn (by norm_num)
  simp only [encode_ntp_timestamp, pyTruncInt]
  simp only [if_pos h1]
  simp only [if_pos h2]

lemma ntp_sub_at_concrete :
    (1700000000.5 : ℚ) - get_ntp_timestamp_offset = 3908988800.5 := by
  norm_num [get_ntp_timestamp_offset]

lemma floor_at_concrete : ⌊(3908988800.5 : ℚ)⌋ = 3908988800 := by
  rw [Int.floor_eq_iff]
  norm_num

/-- C6: for every calendar time whose NTP time `t - epoch_offset` is
non-negative (with integer part within 32 bits), `encode_ntp_timestamp`
returns the floor of the NTP time and the floor of the fractional part
scaled by 2^32 — truncated, not rounded — where the epoch offset is
exactly -2208988800; in particular at calendar time 1700000000.5 the
fraction component is 2147483648. -/
theorem C6_encode_ntp_timestamp_truncates :
    get_ntp_timestamp_offset = -2208988800 ∧
    (∀ t : ℚ, 0 ≤ t - get_ntp_timestamp_offset →
      ⌊t - get_ntp_timestamp_offset⌋ < 4294967296 →
      encode_ntp_timestamp t =
        (⌊t - get_ntp_timestamp_offset⌋,
         ⌊(t - get_ntp_timestamp_offset -
            (⌊t - get_ntp_timestamp_offset⌋ : ℚ)) * 4294967296⌋)) ∧
    (encode_ntp_timestamp 1700000000.5).2 = 2147483648 := by
  refine ⟨rfl, fun t h1 _ => encode_in_range t h1, ?_⟩
  have h1 : 0 ≤ (1700000000.5 : ℚ) - get_ntp_timestamp_offset := by
    rw [ntp_sub_at_concrete]; norm_num
  rw [encode_in_range _ h1]
  dsimp only
  rw [ntp_sub_at_concrete, floor_at_concrete]
  have h2 : ((3908988800.5 : ℚ) - ((3908988800 : ℤ) : ℚ)) * 4294967296
      = ((2147483648 : ℤ) : ℚ) := by norm_num
  rw [h2, Int.floor_intCast]

/-- Witness for C6 at calendar time 1700000000.5. -/
theorem C6_encode_ntp_timestamp_truncates_witness :
    (0 ≤ (1700000000.5 : ℚ) - get_ntp_timestamp_offset) ∧
    (⌊(1700000000.5 : ℚ) - get_ntp_timestamp_offset⌋ < 4294967296) ∧
    encode_ntp_timestamp 1700000000.5 =
      (⌊(1700000000.5 : ℚ) - get_ntp_timestamp_offset⌋,
       ⌊((1700000000.5 : ℚ) - get_ntp_timestamp_offset -
          (⌊(1700000000.5 : ℚ) - get_ntp_timestamp_offset⌋ : ℚ)) *
          4294967296⌋) :=
  ⟨by rw [ntp_sub_at_concrete]; norm_num,
   by rw [ntp_sub_at_concrete, floor_at_concrete]; norm_num,
   C6_encode_ntp_timestamp_truncates.2.1 1700000000.5
     (by rw [ntp_sub_at_concrete]; norm_num)
     (by rw [ntp_sub_at_concrete, floor_at_concrete]; norm_num)⟩

/-- C7: decoding the encoding of a calendar time in the representable
range returns the time to within one fraction unit (strictly less than
2^-32 seconds of truncation error), where `decode_ntp_timestamp s f`
equals `s + f / 2^32 + epoch_offset` with epoch_offset = -2208988800. -/
theorem C7_timestamp_roundtrip_error_bound :
    (∀ s f : ℚ, decode_ntp_timestamp s f = s + f / 4294967296 + -2208988800) ∧
    (∀ t : ℚ, 0 ≤ t - get_ntp_timestamp_offset →
      ⌊t - get_ntp_timestamp_offset⌋ < 4294967296 →
      |decode_ntp_timestamp ((encode_ntp_timestamp t).1 : ℚ)
          ((encode_ntp_timestamp t).2 : ℚ) - t| < 1 / 4294967296) := by
  constructor
  · intro s f; rfl
  · intro t h1 _
    rw [encode_in_range t h1]
    dsimp only
    rw [decode_ntp_timestamp]
    have hX1 := Int.floor_le ((t - get_ntp_timestamp_offset -
      (⌊t - get_ntp_timestamp_offset⌋ : ℚ)) * 4294967296)
    have hX2 := Int.sub_one_lt_floor ((t - get_ntp_timestamp_offset -
      (⌊t - get_ntp_timestamp_offset⌋ : ℚ)) * 4294967296)
    rw [abs_lt]
    constructor <;> linarith

/-- Witness for C7 at calendar time 1700000000.5. -/
theorem C7_timestamp_roundtrip_error_bound_witness :
    (0 ≤ (1700000000.5 : ℚ) - get_ntp_timestamp_offset) ∧
    (⌊(1700000000.5 : ℚ) - get_ntp_timestamp_offset⌋ < 4294967296) ∧
    |decode_ntp_timestamp ((encode_ntp_timestamp 1700000000.5).1 : ℚ)
        ((encode_ntp_timestamp 1700000000.5).2 : ℚ) - 1700000000.5| <
      1 / 4294967296 :=
  ⟨by rw [ntp_sub_at_concrete]; norm_num,
   by rw [ntp_sub_at_concrete, floor_at_concrete]; norm_num,
   C7_timestamp_roundtrip_error_bound.2 1700000000.5
     (by rw [ntp_sub_at_concrete]; norm_num)
     (by rw [ntp_sub_at_concrete, floor_at_concrete]; norm_num)⟩

/-- A concrete 48-byte buffer used as witness input. -/
def bW9 : List ℕ :=
  [199, 1, 250, 127, 0, 1, 2, 3, 255, 254, 253, 252, 10, 20, 30, 40, 1, 0, 0, 0, 128, 64, 32, 16, 0, 0, 0, 2, 99, 98, 97, 96, 5, 6, 7, 8, 200, 100, 50, 25, 255, 255, 255, 255, 0, 0, 0, 1]

/-- Witness for C9 at a concrete 48-byte buffer. -/
theorem C9_deserialize_serialize_roundtrip_witness :
    (bW9.length = 48 ∧ (∀ x ∈ bW9, x < 256)) ∧
    (from_bytes bW9).bind to_bytes = some bW9 :=
  ⟨⟨by decide, by decide⟩,
   C9_deserialize_serialize_roundtrip bW9 (by decide) (by decide)⟩
